import Mathlib

/-!
Verification of the TMS pyramid / XML descriptor pipeline of the
`hex_raster_processor` package (`tiler.py`, `utils.py`, `image_info.py`,
`contrast_stretch.py`, `exceptions.py`).

The Python code is shallowly embedded:
* path-string manipulation (`os.path.join/basename/dirname/abspath/normpath`,
  `str.split`, `str.startswith/endswith`) is reimplemented on `List Char`
  following the CPython `posixpath` algorithms;
* every function that touches the filesystem or spawns a process is modelled
  as a pure function that, besides its Python return value (errors becoming
  `Except`), emits the list of filesystem/process effects it performs, in
  order.  External commands are modelled by the command string they run plus
  the files the documented external tool writes;
* the environment (`gdal` band count of the input raster, `gdalinfo` corner
  coordinates, the temp-name generator of `tempfile`, pre-existence of
  directories) is a record of oracles passed explicitly.
-/

/-! ## Python path-string primitives (posixpath) -/

/-- Boolean list prefix test (used to model `str.startswith` and path
containment). -/
def isPre : List Char → List Char → Bool
  | [], _ => true
  | _ :: _, [] => false
  | a :: as, b :: bs => a == b && isPre as bs

/-- `s.startswith(t)` for Python strings. -/
def strStartsWith (s t : String) : Bool := isPre t.data s.data

/-- `s.endswith(t)` for Python strings. -/
def strEndsWith (s t : String) : Bool := isPre t.data.reverse s.data.reverse

/-- `os.path.join(a, b)` for POSIX paths (two arguments, as used in the
sources): an absolute `b` wins; otherwise a single separator is inserted
unless `a` is empty or already ends with one. -/
def osPathJoin (a b : String) : String :=
  if strStartsWith b "/" then b
  else if a = "" then b
  else if strEndsWith a "/" then a ++ b
  else a ++ "/" ++ b

/-- `os.path.basename(p)`: everything after the last `/`. -/
def pyBasename (p : String) : String :=
  String.mk ((p.data.reverse.takeWhile (fun c => !(c == '/'))).reverse)

/-- `os.path.dirname(p)`: CPython `posixpath.dirname` — the part up to the
last `/`, with trailing separators stripped unless the result consists of
separators only. -/
def pyDirname (p : String) : String :=
  let head := (p.data.reverse.dropWhile (fun c => !(c == '/'))).reverse
  if head ≠ [] ∧ head.any (fun c => !(c == '/')) then
    String.mk ((head.reverse.dropWhile (fun c => c == '/')).reverse)
  else String.mk head

/-- `s.split('.')[0]`: the part of `s` before the first dot (all of `s` when
there is no dot).  `image_info.Image` uses this to derive `image_name`. -/
def beforeDot (s : String) : String :=
  String.mk (s.data.takeWhile (fun c => !(c == '.')))

/-- `s.split('/')` on the character list: splits at every separator,
keeping empty pieces, like Python `str.split('/')`. -/
def splitSlash : List Char → List (List Char)
  | [] => [[]]
  | '/' :: cs => [] :: splitSlash cs
  | c :: cs =>
    match splitSlash cs with
    | [] => [[c]]
    | h :: t => (c :: h) :: t

/-- `sep.join(l)` for Python strings. -/
def joinSep (sep : String) : List String → String
  | [] => ""
  | [x] => x
  | x :: xs => x ++ sep ++ joinSep sep xs

/-- The component-filtering loop of CPython `posixpath.normpath`. -/
def normpathComps (initialSlashes : Nat) (comps : List String) : List String :=
  comps.foldl
    (fun acc comp =>
      if comp = "" ∨ comp = "." then acc
      else if comp ≠ ".." ∨ (initialSlashes = 0 ∧ acc = []) ∨
          acc.getLast? = some ".." then
        acc ++ [comp]
      else acc.dropLast)
    []

/-- `os.path.normpath(p)` for POSIX paths, following CPython: collapse
repeated separators and `.`/`..` components, preserving one or exactly two
leading separators. -/
def pyNormpath (p : String) : String :=
  if p = "" then "."
  else
    let initialSlashes : Nat :=
      if strStartsWith p "//" ∧ ¬ strStartsWith p "///" then 2
      else if strStartsWith p "/" then 1 else 0
    let comps := (splitSlash p.data).map String.mk
    let res := String.mk (List.replicate initialSlashes '/') ++
      joinSep "/" (normpathComps initialSlashes comps)
    if res = "" then "." else res

/-- `os.path.abspath(p)` relative to a current working directory `cwd`:
join when relative, then normalize. -/
def pyAbspath (cwd p : String) : String :=
  pyNormpath (if strStartsWith p "/" then p else osPathJoin cwd p)

example : osPathJoin "a" "b" = "a/b" := by decide
example : osPathJoin "a/" "b" = "a/b" := by decide
example : osPathJoin "a" "" = "a/" := by decide
example : osPathJoin "http://host/" "" = "http://host/" := by decide
example : pyBasename "/a/b.tif" = "b.tif" := by decide
example : pyDirname "/a/b.tif" = "/a" := by decide
example : pyDirname "/a" = "/" := by decide
example : pyDirname "b.tif" = "" := by decide
example : beforeDot "b.tar.gz" = "b" := by decide
example : pyNormpath "/a//b/./c/.." = "/a/b" := by decide
example : pyNormpath "/tmp/t0/x.tif" = "/tmp/t0/x.tif" := by decide
example : pyAbspath "/w" "x.tif" = "/w/x.tif" := by decide
example : pyAbspath "/w" "/a/x.tif" = "/a/x.tif" := by decide

/-! ## `image_info.Image` (`image_info.py`)

An `Image` always recomputes its four attributes from a path via
`_set_image_attributes`; `os.path.abspath` depends on the process working
directory, which is passed explicitly as `cwd`. -/

structure Image where
  image_path : String
  image_dir : String
  image_basename : String
  image_name : String
deriving DecidableEq

/-- `Image._set_image_attributes` / `Image.__init__` (image_info.py:19-28). -/
def mkImage (cwd p : String) : Image :=
  let ap := pyAbspath cwd p
  { image_path := ap
    image_dir := pyDirname ap
    image_basename := pyBasename ap
    image_name := beforeDot (pyBasename ap) }

/-- The filesystem as a predicate on file paths, and `os.rename(old, new)`:
`new` exists afterwards, `old` does not (unless it equals `new`). -/
def osRename (fs : String → Bool) (old new : String) : String → Bool :=
  fun q => if q = new then true else if q = old then false else fs q

/-- `Image.rename_file` (image_info.py:38-47): renames the file on disk to
`new_filename` inside `image_dir` and recomputes the attributes from
`os.path.join(image_dir, new_filename)`. -/
def renameFile (cwd : String) (fs : String → Bool) (img : Image)
    (new_filename : String) : (String → Bool) × Image :=
  let new_path := osPathJoin img.image_dir new_filename
  (osRename fs img.image_path new_path,
   mkImage cwd (osPathJoin img.image_dir new_filename))

/-! ## Errors (`exceptions.py`, `utils.py`) -/

/-- The exceptions raised by the pipeline, keyed by the numeric code the
source passes as first constructor argument.  `TMSError 1` is the
band-count-mismatch error of `create_tms`, `TMSError 2` the move failure,
`XMLError 1` the corner-coordinates failure of `create_xml`, and
`ValidationBandError` comes from `Utils.validate_band`. -/
inductive PyErr where
  | tmsError (code : Nat)
  | xmlError (code : Nat)
  | validationBandError (code : Nat)
deriving DecidableEq

/-- What `gdal` sees at a given image path: whether `os.path.isfile` holds,
and the `RasterCount` reported by `gdal.Open` (`none` models an open
failure). -/
structure Datasource where
  isfile : Bool
  rasterCount : Option Nat
deriving DecidableEq

/-- `Utils.validate_band` (utils.py:125-147): missing file and open failure
raise; otherwise the opened datasource (its band count) is returned. -/
def validate_band (ds : Datasource) : Except PyErr Nat :=
  if ¬ ds.isfile then .error (.validationBandError 1)
  else
    match ds.rasterCount with
    | some n => .ok n
    | none => .error (.validationBandError 2)

/-- `Utils.validate_image_bands` (utils.py:149-163):
`validate_band(path).RasterCount == len(filelist)`. -/
def validate_image_bands (ds : Datasource) (filelist : List Int) :
    Except PyErr Bool :=
  (validate_band ds).map (fun n => n == filelist.length)

/-! ## Filesystem / process effects

Every state-changing step of the pipeline is recorded as one `Eff`, in
program order.  External commands are recorded both as the command string
(`run`) and as the files the invoked tool writes (`extWrite` for
`gdal_translate` / `gdal_contrast_stretch` output, `extTiler` for the
`<output>/<name>.tms` tree `gdal_tiler.py` populates). -/

inductive Eff where
  | mkdir (p : String)
  | run (cmd : String)
  | extWrite (p : String)
  | extTiler (tmsDir : String)
  | writeFile (p : String) (content : String)
  | removeFile (p : String)
  | rmtree (p : String)
  | copyFile (src dest : String)
  | moveTree (src dest : String)
deriving DecidableEq

/-- Effects that write a (new) file to disk.  `moveTree` only relocates
already-written data, `mkdir` creates a directory. -/
def Eff.writesFile : Eff → Bool
  | .extWrite _ => true
  | .extTiler _ => true
  | .writeFile _ _ => true
  | .copyFile _ _ => true
  | _ => false

/-- `p` lies strictly inside directory `dir` (path-prefix test). -/
def pathUnder (dir p : String) : Bool := isPre (dir ++ "/").data p.data

/-- Does the effect delete the file at `target` (directly, by removing a
tree containing it, or by moving away a tree containing it)? -/
def Eff.deletes (target : String) : Eff → Bool
  | .removeFile q => q == target
  | .rmtree q => q == target || pathUnder q target
  | .moveTree src _ => src == target || pathUnder src target
  | _ => false

/-- Does the effect remove the directory `target`?  (`os.remove` cannot
remove a directory, so `removeFile` is not considered.) -/
def Eff.removesDir (target : String) : Eff → Bool
  | .rmtree q => q == target || pathUnder q target
  | .moveTree src _ => src == target || pathUnder src target
  | _ => false

/-- Replay of a trace against one directory path: does the directory `p`
exist after the trace, starting from existence `e`?  (`moveTree src dest`
re-creates `dest/basename(src)`; the inner layout of the tree written by
`gdal_tiler.py` is not tracked, only the `.tms` root it creates.) -/
def dirStep (p : String) (e : Bool) : Eff → Bool
  | .mkdir q => if q == p then true else e
  | .extTiler d => if d == p then true else e
  | .rmtree q => if q == p || pathUnder q p then false else e
  | .moveTree src dest =>
    if src == p || pathUnder src p then false
    else if osPathJoin dest (pyBasename src) == p then true else e
  | _ => e

def dirsAfter (tr : List Eff) (init : Bool) (p : String) : Bool :=
  tr.foldl (dirStep p) init

/-- Replay of a trace against one file path: does the file `p` exist after
the trace?  (`shutil.copy(src, dest)` with a directory `dest` creates
`dest/basename(src)`.) -/
def fileStep (p : String) (e : Bool) : Eff → Bool
  | .extWrite q => if q == p then true else e
  | .writeFile q _ => if q == p then true else e
  | .copyFile src dest => if osPathJoin dest (pyBasename src) == p then true else e
  | .removeFile q => if q == p then false else e
  | .rmtree q => if q == p || pathUnder q p then false else e
  | .moveTree src _ => if pathUnder src p then false else e
  | _ => e

def filesAfter (tr : List Eff) (init : Bool) (p : String) : Bool :=
  tr.foldl (fileStep p) init

/-! ## Command strings (`tiler.py`, `contrast_stretch.py`)

The sources build shell commands by `str.format` on fixed templates; the
embedded functions build the already-substituted command.  `quietParam` is
the `quiet_param` local of the sources: `' -q '` when `quiet` else `''`. -/

def quietParam (quiet : Bool) : String := if quiet then " -q " else ""

/-- `','.join(map(str, nodata))` (tiler.py:156). -/
def commaJoin (l : List Int) : String := joinSep "," (l.map toString)

/-- Python `min(list)` / `max(list)` on a nonempty list of ints (the
sources only apply them to the two-element `zoom` list; the empty-list
case, an error in Python, is given an arbitrary value). -/
def pyMin : List Int → Int
  | [] => 0
  | h :: t => t.foldl min h

def pyMax : List Int → Int
  | [] => 0
  | h :: t => t.foldl max h

/-- `Tiler._get_gdal_tiler_command` after `.format` (tiler.py:55-56,154-162). -/
def gdalTilerCommand (qp : String) (nodata : List Int) (minZoom maxZoom : Int)
    (outputPath inputFile : String) : String :=
  "gdal_tiler.py " ++ qp ++ " -p tms --src-nodata " ++ commaJoin nodata ++
  " --zoom=" ++ toString minZoom ++ ":" ++ toString maxZoom ++
  " -t " ++ outputPath ++ " " ++ inputFile

/-- `Tiler._get_gdal_translate_scale_command` after `.format`
(tiler.py:66-67,96-101). -/
def gdalTranslateCommand (qp inputFile outputPath : String) : String :=
  "gdal_translate " ++ qp ++ " -ot Byte -scale " ++ inputFile ++ " " ++ outputPath

/-- `GdalContrastStretch._get_contrast_command` after `.format`
(contrast_stretch.py:22-23,66-72); `constrast_range` values reach the
command through `' '.join(map(str, ...))` and are modelled by their
rendered text. -/
def contrastCommand (nodata : Int) (range : List String)
    (inputFile outputPath : String) : String :=
  "gdal_contrast_stretch -ndv " ++ toString nodata ++ " -percentile-range " ++
  joinSep " " range ++ " " ++ inputFile ++ " " ++ outputPath

/-- `Tiler._get_image_info`'s `gdalinfo -json {path}` command (tiler.py:41). -/
def gdalinfoCommand (imagePath : String) : String := "gdalinfo -json " ++ imagePath

/-! ## `Tiler.create_tms` (tiler.py:109-174) -/

/-- `Tiler.create_tms`: validates the declared nodata list against the
datasource's band count, then formats and runs `gdal_tiler.py`, returning
the output folder.  The trace is everything it does to the system: nothing
at all when validation fails, otherwise the tiler command and the
`<output_folder>/<name>.tms` tree the external tool writes. -/
def create_tms (ds : Datasource) (image_path : String) (output_folder : String)
    (nodata : List Int) (zoom : List Int) (quiet : Bool) :
    Except PyErr String × List Eff :=
  match validate_image_bands ds nodata with
  | .error e => (.error e, [])
  | .ok valid =>
    if !valid then (.error (.tmsError 1), [])
    else
      let cmd := gdalTilerCommand (quietParam quiet) nodata (pyMin zoom)
        (pyMax zoom) output_folder image_path
      let tmsTree := osPathJoin output_folder
        (beforeDot (pyBasename image_path) ++ ".tms")
      (.ok output_folder, [.run cmd, .extTiler tmsTree])

/-! ## `Tiler.create_xml` (tiler.py:176-279) -/

/-- The `cornerCoordinates.upperLeft` / `.lowerRight` pairs parsed from the
`gdalinfo -json` output.  The JSON numbers only ever reach the XML text via
f-string interpolation, so they are modelled by their rendered decimal
text. -/
structure GdalInfo where
  upperLeftX : String
  upperLeftY : String
  lowerRightX : String
  lowerRightY : String
deriving DecidableEq

/-- The `base_link` "normalization" of create_xml (tiler.py:210-211):
`if base_link.endswith('/'): base_link = os.path.join(base_link, '')`. -/
def normalizeBaseLink (base_link : String) : String :=
  if strEndsWith base_link "/" then osPathJoin base_link "" else base_link

/-- The `<ServerUrl>` line rendered by create_xml (tiler.py:238-239), after
the normalization above: note the template inserts its own `/` between the
(normalized) base link and the image name. -/
def renderedServerUrl (base_link image_name : String) : String :=
  "\t\t<ServerUrl>" ++ normalizeBaseLink base_link ++ "/" ++ image_name ++
  ".tms/$\x7bz\x7d/$\x7bx\x7d/$\x7by\x7d.png</ServerUrl>\n"

/-- The fixed `coordinates_data_window` block (tiler.py:221-226). -/
def coordinatesDataWindow : String :=
  "\t\t<UpperLeftX>-20037508.34</UpperLeftX>\n" ++
  "\t\t<UpperLeftY>20037508.34</UpperLeftY>\n" ++
  "\t\t<LowerRightX>20037508.34</LowerRightX>\n" ++
  "\t\t<LowerRightY>-20037508.34</LowerRightY>"

/-- The `coordinates_target_window` block (tiler.py:228-233); the f-string
puts one space on each side of the interpolated values. -/
def coordinatesTargetWindow (info : GdalInfo) : String :=
  "\t\t<UpperLeftX> " ++ info.upperLeftX ++ " </UpperLeftX>\n" ++
  "\t\t<UpperLeftY> " ++ info.upperLeftY ++ " </UpperLeftY>\n" ++
  "\t\t<LowerRightX> " ++ info.lowerRightX ++ " </LowerRightX>\n" ++
  "\t\t<LowerRightY> " ++ info.lowerRightY ++ " </LowerRightY>"

/-- The full `xml_data` text of create_xml (tiler.py:235-267), with
`base_link` already normalized and `max_zoom` already rendered. -/
def xmlData (base_link image_name maxZoom : String) (info : GdalInfo) : String :=
  "<GDAL_WMS>\n" ++
  "\t<Service name=\"TMS\">\n" ++
  renderedServerUrl base_link image_name ++
  "\t\t<SRS>EPSG:3857</SRS>\n" ++
  "\t\t<ImageFormat>image/png</ImageFormat>\n" ++
  "\t</Service>\n" ++
  "\t<DataWindow>\n" ++
  coordinatesDataWindow ++ "\n" ++
  "\t\t<TileLevel>" ++ maxZoom ++ "</TileLevel>\n" ++
  "\t\t<TileCountX>1</TileCountX>\n" ++
  "\t\t<TileCountY>1</TileCountY>\n" ++
  "\t\t<YOrigin>bottom</YOrigin>\n" ++
  "\t</DataWindow>\n" ++
  "\t<TargetWindow>\n" ++
  coordinatesTargetWindow info ++ "\n" ++
  "\t</TargetWindow>\n" ++
  "\t<Projection>EPSG:3857</Projection>\n" ++
  "\t<BlockSizeX>256</BlockSizeX>\n" ++
  "\t<BlockSizeY>256</BlockSizeY>\n" ++
  "\t<BandsCount>4</BandsCount>\n" ++
  "\t<ZeroBlockHttpCodes>204,303,400,404,500,501</ZeroBlockHttpCodes>\n" ++
  "\t<ZeroBlockOnServerException>true</ZeroBlockOnServerException>\n" ++
  "\t<Cache>\n" ++
  "\t\t<Path>./gdalwmscache/cache_" ++ image_name ++ ".tms</Path>\n" ++
  "\t</Cache>\n" ++
  "</GDAL_WMS>"

/-- `Tiler.create_xml`: runs `gdalinfo -json` on `image_path`; `info` is
the parse result (`none` when the output cannot be parsed or the
`cornerCoordinates` keys are missing, in which case `XMLError(1, ...)` is
raised before anything is written).  On success it writes the rendered
descriptor to `os.path.join(output_folder, image.image_name + '.xml')` and
returns only the filename. -/
def create_xml (info : Option GdalInfo) (image_path : String) (image : Image)
    (base_link : String) (max_zoom : Int) (output_folder : String) :
    Except PyErr String × List Eff :=
  let infoRun : List Eff := [.run (gdalinfoCommand image_path)]
  match info with
  | none => (.error (.xmlError 1), infoRun)
  | some i =>
    let data := xmlData (normalizeBaseLink base_link) image.image_name
      (toString max_zoom) i
    let filename := image.image_name ++ ".xml"
    let output_path := osPathJoin output_folder filename
    (.ok filename, infoRun ++ [.writeFile output_path data])

/-! ## `Tiler.make_tiles` (tiler.py:281-401) -/

/-- The ambient state `make_tiles` interacts with:
* `cwd` — the process working directory (`os.path.abspath`);
* `tmpRoot`, `tmpNames` — `tempfile.gettempdir()` and the stream of names
  `next(tempfile._get_candidate_names())` yields (the i-th call in an
  invocation gets `tmpNames i`); `Utils.create_tempdir` joins and creates
  `tmpRoot/tmpNames i`;
* `rasterCount` — `gdal.Open(...).RasterCount` for the input raster and the
  byte-scaled / contrast-stretched copies derived from it (`gdal_translate
  -ot Byte -scale` and `gdal_contrast_stretch` preserve the band count);
  `none` models an unopenable datasource;
* `inputIsFile` — whether `os.path.isfile` holds for the input image path
  (the intermediate copies written during the run always exist);
* `info` — the parsed `gdalinfo -json` corner coordinates (see `create_xml`);
* `outputFolderExists` / `outputFolderExistsAtMove` — whether the
  caller-requested output folder already exists at the two
  `Utils.check_creation_folder` call sites;
* `destHasSameTms` — whether `os.listdir(output_folder)` already contains a
  `<name>.tms` entry when `Utils.move_path_files` relocates the pyramid. -/
structure Env where
  cwd : String
  tmpRoot : String
  tmpNames : Nat → String
  rasterCount : Option Nat
  inputIsFile : Bool
  info : Option GdalInfo
  outputFolderExists : Bool
  outputFolderExistsAtMove : Bool
  destHasSameTms : Bool

/-- The arguments of `Tiler.make_tiles` (defaults as in the source;
`contrast_range` values are modelled by their rendered text, see
`contrastCommand`). -/
structure Args where
  image_path : String
  base_link : String
  output_folder : String := "tms/"
  zoom : List Int := [2, 15]
  nodata : List Int := [0, 0, 0]
  contrast : Bool := false
  contrast_range : List String := ["0.02", "0.98"]
  convert : Bool := true
  move : Bool := false
  quiet : Bool := true

/-- The temporary directory created by the `n`-th `Utils.create_tempdir`
call of an invocation (utils.py:88-106). -/
def tmpdirAt (env : Env) (n : Nat) : String :=
  osPathJoin env.tmpRoot (env.tmpNames n)

/-- `Image.get_tempfile` (image_info.py:30-32): a fresh temp directory is
created and joined with the image's basename. -/
def getTempfilePath (env : Env) (n : Nat) (img : Image) : String :=
  osPathJoin (tmpdirAt env n) img.image_basename

/-- `input_image = Image(image_path)` (tiler.py:327). -/
def inputImage (env : Env) (a : Args) : Image := mkImage env.cwd a.image_path

/-- How many temp names the convert step consumes. -/
def nAfterConvert (a : Args) : Nat := if a.convert then 1 else 0

/-- How many temp names the convert and contrast steps consume together. -/
def nAfterContrast (a : Args) : Nat :=
  nAfterConvert a + (if a.contrast then 1 else 0)

/-- The path of the byte-scaled copy when `convert` is on:
`input_image.get_tempfile()` (tiler.py:330-334). -/
def convertedPath (env : Env) (a : Args) : String :=
  getTempfilePath env 0 (inputImage env a)

/-- `converted_image` after the optional CONVERT step (tiler.py:329-337). -/
def convertedImage (env : Env) (a : Args) : Image :=
  if a.convert then mkImage env.cwd (convertedPath env a) else inputImage env a

/-- Effects of the optional CONVERT step: the temp dir creation of
`get_tempfile`, the `gdal_translate` command and the file it writes. -/
def convertTrace (env : Env) (a : Args) : List Eff :=
  if a.convert then
    [.mkdir (tmpdirAt env 0),
     .run (gdalTranslateCommand (quietParam a.quiet)
       (inputImage env a).image_path (convertedPath env a)),
     .extWrite (convertedPath env a)]
  else []

/-- The path of the contrast-stretched copy when `contrast` is on:
`converted_image.get_tempfile()` (tiler.py:339-345). -/
def contrastedPath (env : Env) (a : Args) : String :=
  getTempfilePath env (nAfterConvert a) (convertedImage env a)

/-- `contrasted_image` after the optional CONTRAST step (tiler.py:339-347). -/
def contrastedImage (env : Env) (a : Args) : Image :=
  if a.contrast then mkImage env.cwd (contrastedPath env a)
  else convertedImage env a

/-- Effects of the optional CONTRAST step (`GdalContrastStretch.get_image`
with an explicit `output_path`, contrast_stretch.py:37-83). -/
def contrastTrace (env : Env) (a : Args) : List Eff :=
  if a.contrast then
    [.mkdir (tmpdirAt env (nAfterConvert a)),
     .run (contrastCommand 0 a.contrast_range
       (convertedImage env a).image_path (contrastedPath env a)),
     .extWrite (contrastedPath env a)]
  else []

/-- `output_folder_name` (tiler.py:349-353): a fresh staging temp dir when
`move`, otherwise the caller's folder (created if absent,
`Utils.check_creation_folder`, utils.py:108-122). -/
def outputFolderName (env : Env) (a : Args) : String :=
  if a.move then tmpdirAt env (nAfterContrast a) else a.output_folder

/-- Effects of establishing `output_folder_name`. -/
def outputFolderTrace (env : Env) (a : Args) : List Eff :=
  if a.move then [.mkdir (tmpdirAt env (nAfterContrast a))]
  else if env.outputFolderExists then [] else [.mkdir a.output_folder]

/-- The datasource `Utils.validate_band` sees for the working image: when a
conversion or contrast step ran, the validated path is the file that step
just wrote; otherwise it is the caller's input. -/
def workingDatasource (env : Env) (a : Args) : Datasource :=
  { isfile := a.convert || a.contrast || env.inputIsFile
    rasterCount := env.rasterCount }

/-- `Tiler.make_tiles`: the full pipeline.  Returns the Python return value
(`(tms_path, xml_path)` on success, the raised exception otherwise) paired
with the ordered effect trace.  The un-modelled failure modes of the
external commands and of `shutil` (`TMSError 2`) do not occur: every
external process is assumed to exit 0. -/
def make_tiles (env : Env) (a : Args) : Except PyErr (String × String) × List Eff :=
  let input_image := inputImage env a
  let converted_image := convertedImage env a
  let contrasted_image := contrastedImage env a
  let preTrace := convertTrace env a ++ contrastTrace env a ++
    outputFolderTrace env a
  let ofn := outputFolderName env a
  match create_tms (workingDatasource env a) contrasted_image.image_path ofn
      a.nodata a.zoom a.quiet with
  | (.error e, t4) => (.error e, preTrace ++ t4)
  | (.ok tms, t4) =>
    match create_xml env.info contrasted_image.image_path input_image
        a.base_link (pyMax a.zoom) ofn with
    | (.error e, t5) => (.error e, preTrace ++ t4 ++ t5)
    | (.ok xml, t5) =>
      let cleanupTrace : List Eff :=
        if a.convert then [.removeFile converted_image.image_path] else []
      let tms_path := osPathJoin tms (converted_image.image_name ++ ".tms")
      let xml_path := osPathJoin ofn xml
      if a.move then
        let mv1 : List Eff :=
          if env.outputFolderExistsAtMove then [] else [.mkdir a.output_folder]
        let destTms := osPathJoin a.output_folder (pyBasename tms_path)
        let mv2 : List Eff :=
          (if env.destHasSameTms then [.rmtree destTms] else []) ++
          [.moveTree tms_path a.output_folder]
        let mv3 : List Eff :=
          [.copyFile xml_path a.output_folder, .removeFile xml_path]
        (.ok (osPathJoin a.output_folder (converted_image.image_name ++ ".tms"),
              osPathJoin a.output_folder xml),
         preTrace ++ t4 ++ t5 ++ cleanupTrace ++ mv1 ++ mv2 ++ mv3)
      else
        (.ok (tms_path, xml_path), preTrace ++ t4 ++ t5 ++ cleanupTrace)

/-! ## Helper lemmas on the path primitives -/

/-- A string with no separator in it (a plain file name component). -/
def noSlash (s : String) : Bool := s.data.all (fun c => !(c == '/'))

lemma takeWhile_append_sat {p : Char → Bool} {l₁ l₂ : List Char} {c : Char}
    (h₁ : ∀ x ∈ l₁, p x = true) (hc : p c = false) :
    (l₁ ++ c :: l₂).takeWhile p = l₁ := by
  induction l₁ with
  | nil => simp [List.takeWhile_cons, hc]
  | cons a t ih =>
    have ha : p a = true := h₁ a (by simp)
    simp only [List.cons_append, List.takeWhile_cons, ha, if_true]
    rw [ih (fun x hx => h₁ x (by simp [hx]))]

lemma takeWhile_eq_self_of_all {p : Char → Bool} {l : List Char}
    (h : ∀ x ∈ l, p x = true) : l.takeWhile p = l := by
  induction l with
  | nil => rfl
  | cons a t ih =>
    have ha : p a = true := h a (by simp)
    simp only [List.takeWhile_cons, ha, if_true]
    rw [ih (fun x hx => h x (by simp [hx]))]

lemma mem_takeWhile_sat {p : Char → Bool} {l : List Char} {x : Char}
    (h : x ∈ l.takeWhile p) : p x = true := by
  induction l with
  | nil => simp at h
  | cons a t ih =>
    by_cases ha : p a = true
    · rw [List.takeWhile_cons, if_pos ha] at h
      rcases List.mem_cons.mp h with h' | h'
      · rw [h']; exact ha
      · exact ih h'
    · rw [List.takeWhile_cons, if_neg ha] at h
      simp at h

lemma mem_of_mem_takeWhile {p : Char → Bool} {l : List Char} {x : Char}
    (h : x ∈ l.takeWhile p) : x ∈ l := by
  induction l with
  | nil => simp at h
  | cons a t ih =>
    by_cases ha : p a = true
    · rw [List.takeWhile_cons, if_pos ha] at h
      rcases List.mem_cons.mp h with h' | h'
      · simp [h']
      · simp [ih h']
    · rw [List.takeWhile_cons, if_neg ha] at h
      simp at h

lemma strData_append (a b : String) : (a ++ b).data = a.data ++ b.data := rfl

lemma string_eq_of_data {a b : String} (h : a.data = b.data) : a = b := by
  cases a; cases b; cases h; rfl

lemma noSlash_spec {s : String} (h : noSlash s = true) :
    ∀ c ∈ s.data, (c == '/') = false := by
  intro c hc
  have := List.all_eq_true.mp h c hc
  simpa using this

lemma isPre_single {c : Char} {l : List Char} :
    isPre [c] l = true ↔ ∃ t, l = c :: t := by
  cases l with
  | nil =>
    simp only [isPre]
    constructor
    · intro h; exact absurd h (by simp)
    · rintro ⟨t, ht⟩; exact absurd ht (by simp)
  | cons a t =>
    simp only [isPre, Bool.and_eq_true, beq_iff_eq]
    constructor
    · rintro ⟨h, -⟩; exact ⟨t, by rw [h]⟩
    · rintro ⟨t', ht⟩
      injection ht with h1 h2
      exact ⟨h1.symm, trivial⟩

/-- Every `os.path.basename` result is separator-free. -/
lemma noSlash_pyBasename (p : String) : noSlash (pyBasename p) = true := by
  apply List.all_eq_true.mpr
  intro c hc
  have hc' : c ∈ (p.data.reverse.takeWhile (fun c => !(c == '/'))) := by
    simpa [pyBasename] using hc
  simpa using mem_takeWhile_sat hc'

/-- `beforeDot` keeps a separator-free string separator-free. -/
lemma noSlash_beforeDot {s : String} (h : noSlash s = true) :
    noSlash (beforeDot s) = true := by
  apply List.all_eq_true.mpr
  intro c hc
  have hc' : c ∈ s.data.takeWhile (fun c => !(c == '.')) := by
    simpa [beforeDot] using hc
  have : c ∈ s.data := mem_of_mem_takeWhile hc'
  have := noSlash_spec h c this
  simpa using this

lemma pyBasename_of_noSlash {b : String} (hb : noSlash b = true) :
    pyBasename b = b := by
  apply string_eq_of_data
  show (b.data.reverse.takeWhile (fun c => !(c == '/'))).reverse = b.data
  rw [takeWhile_eq_self_of_all, List.reverse_reverse]
  intro x hx
  have : x ∈ b.data := by simpa using hx
  simpa using noSlash_spec hb x this

lemma strEndsWith_slash_iff {d : String} :
    strEndsWith d "/" = true ↔ ∃ t, d.data.reverse = '/' :: t := by
  have h0 : strEndsWith d "/" = isPre ['/'] d.data.reverse := rfl
  rw [h0, isPre_single]

/-- Attaching a separator-free name after a separator leaves the basename
equal to that name. -/
lemma pyBasename_append_slash {d b : String} (hb : noSlash b = true) :
    pyBasename (d ++ "/" ++ b) = b := by
  apply string_eq_of_data
  show (((d ++ "/" ++ b).data.reverse.takeWhile (fun c => !(c == '/'))).reverse)
    = b.data
  have hdata : (d ++ "/" ++ b).data.reverse = b.data.reverse ++ '/' :: d.data.reverse := by
    simp [strData_append]
  rw [hdata, takeWhile_append_sat, List.reverse_reverse]
  · intro x hx
    have : x ∈ b.data := by simpa using hx
    simpa using noSlash_spec hb x this
  · simp

lemma pyBasename_append_of_endsSlash {d b : String}
    (hd : strEndsWith d "/" = true) (hb : noSlash b = true) :
    pyBasename (d ++ b) = b := by
  obtain ⟨t, ht⟩ := strEndsWith_slash_iff.mp hd
  apply string_eq_of_data
  show (((d ++ b).data.reverse.takeWhile (fun c => !(c == '/'))).reverse) = b.data
  have hdata : (d ++ b).data.reverse = b.data.reverse ++ '/' :: t := by
    rw [strData_append, List.reverse_append, ht]
  rw [hdata, takeWhile_append_sat, List.reverse_reverse]
  · intro x hx
    have : x ∈ b.data := by simpa using hx
    simpa using noSlash_spec hb x this
  · simp

lemma strStartsWith_slash_of_noSlash {b : String} (hb : noSlash b = true) :
    strStartsWith b "/" = false := by
  cases h : strStartsWith b "/" with
  | false => rfl
  | true =>
    have h0 : isPre ['/'] b.data = true := h
    obtain ⟨t, ht⟩ := isPre_single.mp h0
    have hc : '/' ∈ b.data := by rw [ht]; simp
    have := noSlash_spec hb '/' hc
    simp at this

/-- `os.path.basename (os.path.join d b) = b` for a separator-free name `b`. -/
lemma pyBasename_osPathJoin {d b : String} (hb : noSlash b = true) :
    pyBasename (osPathJoin d b) = b := by
  unfold osPathJoin
  rw [strStartsWith_slash_of_noSlash hb]
  by_cases hd0 : d = ""
  · simp [hd0, pyBasename_of_noSlash hb]
  · simp only [if_neg hd0, Bool.false_eq_true, if_false]
    by_cases hde : strEndsWith d "/" = true
    · rw [if_pos hde, pyBasename_append_of_endsSlash hde hb]
    · rw [if_neg hde, pyBasename_append_slash hb]

lemma isPre_length_le {l₁ l₂ : List Char} (h : isPre l₁ l₂ = true) :
    l₁.length ≤ l₂.length := by
  induction l₁ generalizing l₂ with
  | nil => simp
  | cons a t ih =>
    cases l₂ with
    | nil => simp [isPre] at h
    | cons b t₂ =>
      simp only [isPre, Bool.and_eq_true] at h
      simpa using ih h.2

lemma isPre_false_of_longer {l₁ l₂ : List Char} (h : l₂.length < l₁.length) :
    isPre l₁ l₂ = false := by
  cases hp : isPre l₁ l₂ with
  | false => rfl
  | true => exact absurd (isPre_length_le hp) (by omega)

lemma strLength_append (a b : String) :
    (a ++ b).data.length = a.data.length + b.data.length := by
  rw [strData_append, List.length_append]

/-- Joining a nonempty relative name onto `d` yields a strictly longer
path, hence a path different from `d` and not a directory containing `d`. -/
lemma osPathJoin_longer (d b : String)
    (hb : strStartsWith b "/" = false) (hbne : b ≠ "") :
    d.data.length < (osPathJoin d b).data.length := by
  have hbpos : 0 < b.data.length := by
    cases hd : b.data with
    | nil => exact absurd (string_eq_of_data hd) hbne
    | cons c t => simp [hd]
  unfold osPathJoin
  rw [hb]
  by_cases hd0 : d = ""
  · subst hd0
    rw [if_pos rfl]
    exact hbpos
  · simp only [if_neg hd0, Bool.false_eq_true, if_false]
    by_cases hde : strEndsWith d "/" = true
    · rw [if_pos hde, strLength_append]; omega
    · rw [if_neg hde, strLength_append, strLength_append]
      have : (1 : Nat) ≤ "/".data.length := by decide
      omega

lemma osPathJoin_ne_left (d b : String)
    (hb : strStartsWith b "/" = false) (hbne : b ≠ "") :
    (osPathJoin d b == d) = false := by
  have h := osPathJoin_longer d b hb hbne
  cases he : (osPathJoin d b == d) with
  | false => rfl
  | true =>
    have := eq_of_beq he
    rw [this] at h
    omega

lemma pathUnder_osPathJoin_left (d b : String)
    (hb : strStartsWith b "/" = false) (hbne : b ≠ "") :
    pathUnder (osPathJoin d b) d = false := by
  have h := osPathJoin_longer d b hb hbne
  unfold pathUnder
  apply isPre_false_of_longer
  rw [strLength_append]
  have : (1 : Nat) ≤ "/".data.length := by decide
  omega

lemma append_ne_empty_right {s t : String} (ht : t ≠ "") : s ++ t ≠ "" := by
  intro h
  have hd : (s ++ t).data = [] := by rw [h]
  rw [strData_append] at hd
  rcases List.append_eq_nil.mp hd with ⟨-, h2⟩
  exact ht (string_eq_of_data h2)

lemma strStartsWith_append_slash_false {s t : String}
    (hs : noSlash s = true) (ht : strStartsWith t "/" = false) :
    strStartsWith (s ++ t) "/" = false := by
  cases h : strStartsWith (s ++ t) "/" with
  | false => rfl
  | true =>
    have h0 : isPre ['/'] (s ++ t).data = true := h
    obtain ⟨u, hu⟩ := isPre_single.mp h0
    rw [strData_append] at hu
    cases hsd : s.data with
    | nil =>
      rw [hsd, List.nil_append] at hu
      have : isPre ['/'] t.data = true := by
        rw [hu]; simp [isPre]
      exact absurd (show strStartsWith t "/" = true from this) (by rw [ht]; simp)
    | cons c cs =>
      rw [hsd] at hu
      injection hu with h1 h2
      have hc : c ∈ s.data := by rw [hsd]; simp
      have := noSlash_spec hs c hc
      rw [← h1] at this
      simp at this

/-! ## Reduction lemmas for `create_tms` -/

lemma create_tms_mismatch (ds : Datasource) (ip ofn : String)
    (nodata zoom : List Int) (q : Bool) {b : Nat}
    (hf : ds.isfile = true) (hb : ds.rasterCount = some b)
    (hne : b ≠ nodata.length) :
    create_tms ds ip ofn nodata zoom q = (.error (.tmsError 1), []) := by
  have hbeq : (b == nodata.length) = false := by
    simpa using hne
  simp [create_tms, validate_image_bands, validate_band, Except.map, hf, hb,
    hbeq]

lemma create_tms_success (ds : Datasource) (ip ofn : String)
    (nodata zoom : List Int) (q : Bool)
    (hf : ds.isfile = true) (hb : ds.rasterCount = some nodata.length) :
    create_tms ds ip ofn nodata zoom q =
      (.ok ofn,
       [.run (gdalTilerCommand (quietParam q) nodata (pyMin zoom) (pyMax zoom)
          ofn ip),
        .extTiler (osPathJoin ofn (beforeDot (pyBasename ip) ++ ".tms"))]) := by
  simp [create_tms, validate_image_bands, validate_band, Except.map, hf, hb]

/-! ## Shared concrete fixtures -/

/-- A sample parsed `gdalinfo` corner-coordinate record. -/
def sampleInfo : GdalInfo := ⟨"1.0", "2.0", "3.0", "4.0"⟩

/-- A benign environment: a one-band raster at an existing absolute path,
parseable `gdalinfo` output, existing output folder, the temp-name stream
`t0, t1, ...`. -/
def sampleEnv : Env :=
  { cwd := "/", tmpRoot := "/tmp", tmpNames := fun n => "t" ++ toString n,
    rasterCount := some 1, inputIsFile := true, info := some sampleInfo,
    outputFolderExists := true, outputFolderExistsAtMove := true,
    destHasSameTms := false }

/-! ## C4 — band mismatch aborts `create_tms` before the tiler command -/

/-- C4: whenever the raster at `image_path` opens with a band count `b`
different from the length of the nodata list, `create_tms` raises
`TMSError(1)` (the invalid-band-count error) and its effect trace is empty:
no external command is issued and no file or directory is created. -/
theorem claim_c4_mismatch_aborts_before_command {ds : Datasource}
    (ip ofn : String) (nodata zoom : List Int) (q : Bool) {b : Nat}
    (hf : ds.isfile = true) (hb : ds.rasterCount = some b)
    (hne : b ≠ nodata.length) :
    create_tms ds ip ofn nodata zoom q = (.error (.tmsError 1), []) :=
  create_tms_mismatch ds ip ofn nodata zoom q hf hb hne

/-- C4 witness: a one-band datasource against a two-element nodata list. -/
theorem claim_c4_witness :
    (Datasource.mk true (some 1)).isfile = true ∧
    (Datasource.mk true (some 1)).rasterCount = some 1 ∧
    (1 : Nat) ≠ ([0, 0] : List Int).length ∧
    create_tms ⟨true, some 1⟩ "/i/x.tif" "tms/" [0, 0] [2, 15] true =
      (.error (.tmsError 1), []) :=
  ⟨rfl, rfl, by decide,
   claim_c4_mismatch_aborts_before_command "/i/x.tif" "tms/" [0, 0] [2, 15]
     true rfl rfl (by decide)⟩

/-! ## C5 — `create_tms` is insensitive to the order of the zoom pair -/

/-- C5: for every zoom pair `[a, b]`, `create_tms` (and the
`gdal_tiler.py` command it formats, which embeds `min:max`) is identical
for `[a, b]` and `[b, a]`; in particular the external tool receives the
same command and produces the same zoom-level directories. -/
theorem claim_c5_zoom_order_irrelevant (ds : Datasource) (ip ofn : String)
    (nodata : List Int) (q : Bool) (a b : Int) :
    create_tms ds ip ofn nodata [a, b] q = create_tms ds ip ofn nodata [b, a] q := by
  unfold create_tms
  have h1 : pyMin [a, b] = pyMin [b, a] := by
    show min a b = min b a
    exact min_comm a b
  have h2 : pyMax [a, b] = pyMax [b, a] := by
    show max a b = max b a
    exact max_comm a b
  rw [h1, h2]

/-! ## C8 — `create_xml` output content is deterministic -/

/-- The content written by a `create_xml` invocation (the text of the last
`writeFile` effect of its trace), if any. -/
def xmlWrittenContent (r : Except PyErr String × List Eff) : Option String :=
  r.2.foldr
    (fun e acc =>
      match e with
      | .writeFile _ c => some c
      | _ => acc)
    none

/-- C8: two `create_xml` invocations with identical arguments and an
identical parsed info-query result write byte-identical XML content (the
rendering depends on nothing else). -/
theorem claim_c8_xml_deterministic (i₁ i₂ : Option GdalInfo) (ip : String)
    (img : Image) (bl : String) (mz : Int) (ofd : String) (h : i₁ = i₂) :
    xmlWrittenContent (create_xml i₁ ip img bl mz ofd) =
      xmlWrittenContent (create_xml i₂ ip img bl mz ofd) := by
  rw [h]

/-- C8 witness: concrete identical invocations. -/
theorem claim_c8_witness :
    some sampleInfo = some sampleInfo ∧
    xmlWrittenContent
        (create_xml (some sampleInfo) "/i/x.tif" (mkImage "/" "/i/x.tif")
          "http://h" 8 "/o") =
      xmlWrittenContent
        (create_xml (some sampleInfo) "/i/x.tif" (mkImage "/" "/i/x.tif")
          "http://h" 8 "/o") :=
  ⟨rfl,
   claim_c8_xml_deterministic (some sampleInfo) (some sampleInfo) "/i/x.tif"
     (mkImage "/" "/i/x.tif") "http://h" 8 "/o" rfl⟩

/-! ## C9 — missing corner coordinates fail `create_xml` without writes -/

/-- C9: when the `gdalinfo` output cannot be parsed or lacks the
`cornerCoordinates` keys (`info = none`), `create_xml` fails with
`XMLError(1)` and its trace writes no file; when both corner keys are
present (`info = some i`) it succeeds (returning the descriptor filename),
raising no error. -/
theorem claim_c9_corner_coordinates (ip : String) (img : Image) (bl : String)
    (mz : Int) (ofd : String) :
    (create_xml none ip img bl mz ofd).1 = .error (.xmlError 1) ∧
    ((create_xml none ip img bl mz ofd).2.all fun e => !e.writesFile) = true ∧
    ∀ i : GdalInfo,
      (create_xml (some i) ip img bl mz ofd).1 = .ok (img.image_name ++ ".xml") :=
  ⟨rfl, rfl, fun _ => rfl⟩

/-! ## C3 — `base_link` normalization in the ServerUrl -/

/-- C3 evaluation at the failing input: the `base_link` normalization at
tiler.py:210-211 is a no-op (`os.path.join(base_link, '')` keeps a trailing
separator), and the template inserts its own `/`, so a trailing-slash base
link renders a double slash in the ServerUrl, while a slashless base link
renders a single one. -/
theorem claim_c3_trailing_slash_double :
    renderedServerUrl "http://host/" "img" =
      "\t\t<ServerUrl>http://host//img.tms/$\x7bz\x7d/$\x7bx\x7d/$\x7by\x7d.png</ServerUrl>\n" ∧
    renderedServerUrl "http://host" "img" =
      "\t\t<ServerUrl>http://host/img.tms/$\x7bz\x7d/$\x7bx\x7d/$\x7by\x7d.png</ServerUrl>\n" := by
  constructor <;> rfl

/-! ## C1 — is a band-count mismatch in `make_tiles` side-effect-free? -/

/-- `make_tiles` arguments with a mismatched nodata list (two entries for
the one-band `sampleEnv` raster) and the default `convert=True`. -/
def mismatchArgs : Args :=
  { image_path := "/i/x.tif", base_link := "http://h", output_folder := "/o",
    zoom := [2, 15], nodata := [0, 0] }

/-- C1 counterexample: with the default `convert=True`, a `make_tiles` call
on a raster whose band count differs from the nodata list length does raise
`TMSError`, but only after `gdal_translate` has already written the
byte-scaled copy: a file is written before the failure, so the failure is
not side-effect-free. -/
theorem claim_c1_counterexample :
    (make_tiles sampleEnv mismatchArgs).1 = .error (.tmsError 1) ∧
    ((make_tiles sampleEnv mismatchArgs).2.any fun e => e.writesFile) = true := by
  constructor <;> rfl

/-- C1 amended: when the convert and contrast steps are both disabled, a
band-count mismatch aborts `make_tiles` with `TMSError(1)` before any file
is written (the trace contains no file-writing effect; at most directories
are created).  With `convert=True` (its default) the byte-scaled
intermediate is written before the failure, as the counterexample shows. -/
theorem claim_c1_amended (env : Env) (a : Args) (b : Nat)
    (hcv : a.convert = false) (hct : a.contrast = false)
    (hif : env.inputIsFile = true)
    (hrc : env.rasterCount = some b) (hne : b ≠ a.nodata.length) :
    (make_tiles env a).1 = .error (.tmsError 1) ∧
    ((make_tiles env a).2.all fun e => !e.writesFile) = true := by
  have hds : (workingDatasource env a).isfile = true := by
    simp [workingDatasource, hcv, hct, hif]
  have hds2 : (workingDatasource env a).rasterCount = some b := hrc
  have h4 := create_tms_mismatch (workingDatasource env a)
    (contrastedImage env a).image_path (outputFolderName env a) a.nodata
    a.zoom a.quiet hds hds2 hne
  simp only [make_tiles, h4]
  refine ⟨trivial, ?_⟩
  by_cases hm : a.move <;> by_cases ho : env.outputFolderExists <;>
    simp [convertTrace, contrastTrace, outputFolderTrace, hcv, hct, hm, ho,
      Eff.writesFile]

/-! ## C6 — return values of `make_tiles` and `create_xml` -/

/-- The byte-scaled copy keeps the input's base name: `get_tempfile` joins a
fresh temp directory with the input's basename, so the derived
`image_name` is unchanged (provided the temp path is already in normal
form, so that `os.path.abspath` leaves it alone). -/
lemma convertedImage_name (env : Env) (a : Args)
    (hnc : a.convert = true →
      pyAbspath env.cwd (convertedPath env a) = convertedPath env a) :
    (convertedImage env a).image_name = (inputImage env a).image_name := by
  by_cases hcv : a.convert
  · have h1 : convertedImage env a = mkImage env.cwd (convertedPath env a) := by
      simp [convertedImage, hcv]
    rw [h1]
    show beforeDot (pyBasename (pyAbspath env.cwd (convertedPath env a))) = _
    rw [hnc hcv]
    have h2 : convertedPath env a =
        osPathJoin (tmpdirAt env 0) (inputImage env a).image_basename := rfl
    rw [h2, pyBasename_osPathJoin]
    · rfl
    · exact noSlash_pyBasename _
  · simp [convertedImage, hcv]

/-- C6: every successful `make_tiles` call returns the pair
`({output_folder}/{base_name}.tms, {output_folder}/{base_name}.xml)` for
the input image's base name (both with and without `move`); and
`create_xml` itself returns only the filename `{base_name}.xml` while
writing the descriptor to `{output_folder}/{base_name}.xml`. -/
theorem claim_c6_return_paths :
    (∀ (env : Env) (a : Args) (i : GdalInfo),
      env.info = some i →
      env.rasterCount = some a.nodata.length →
      env.inputIsFile = true →
      (a.convert = true →
        pyAbspath env.cwd (convertedPath env a) = convertedPath env a) →
      (make_tiles env a).1 =
        .ok (osPathJoin a.output_folder
               ((inputImage env a).image_name ++ ".tms"),
             osPathJoin a.output_folder
               ((inputImage env a).image_name ++ ".xml"))) ∧
    (∀ (i : GdalInfo) (ip : String) (img : Image) (bl : String) (mz : Int)
        (ofd : String),
      (create_xml (some i) ip img bl mz ofd).1 = .ok (img.image_name ++ ".xml") ∧
      (create_xml (some i) ip img bl mz ofd).2 =
        [.run (gdalinfoCommand ip),
         .writeFile (osPathJoin ofd (img.image_name ++ ".xml"))
           (xmlData (normalizeBaseLink bl) img.image_name (toString mz) i)]) := by
  constructor
  · intro env a i hinfo hrc hif hnc
    have hds : (workingDatasource env a).isfile = true := by
      by_cases hcv : a.convert <;> by_cases hct : a.contrast <;>
        simp [workingDatasource, hcv, hct, hif]
    have h4 := create_tms_success (workingDatasource env a)
      (contrastedImage env a).image_path (outputFolderName env a) a.nodata
      a.zoom a.quiet hds hrc
    have hname := convertedImage_name env a hnc
    simp only [make_tiles, h4, hinfo, create_xml]
    by_cases hm : a.move
    · simp [hm, hname]
    · simp [hm, hname, outputFolderName]
  · intro i ip img bl mz ofd
    exact ⟨rfl, rfl⟩

/-- Well-formed `make_tiles` arguments for a successful run: a one-band
raster, matching nodata list. -/
def okArgs : Args :=
  { image_path := "/i/x.tif", base_link := "http://h", output_folder := "/o",
    zoom := [7, 8], nodata := [0] }

/-- C6 witness: a successful concrete run returns
`("/o/x.tms", "/o/x.xml")`. -/
theorem claim_c6_witness :
    sampleEnv.info = some sampleInfo ∧
    sampleEnv.rasterCount = some okArgs.nodata.length ∧
    sampleEnv.inputIsFile = true ∧
    pyAbspath sampleEnv.cwd (convertedPath sampleEnv okArgs) =
      convertedPath sampleEnv okArgs ∧
    (make_tiles sampleEnv okArgs).1 = .ok ("/o/x.tms", "/o/x.xml") := by
  refine ⟨rfl, rfl, rfl, by decide, ?_⟩
  have h := (claim_c6_return_paths.1 sampleEnv okArgs sampleInfo rfl rfl rfl
    (fun _ => by decide))
  exact h

/-! ## C2 — does `move=true` leave a residual staging directory? -/

/-- Successful `make_tiles` arguments with `move=true`. -/
def moveArgs : Args :=
  { image_path := "/i/x.tif", base_link := "http://h", output_folder := "/o",
    zoom := [7, 8], nodata := [0], move := true }

/-- C2 counterexample: a successful `make_tiles` call with `move=true`
creates the staging directory `/tmp/t1`, relocates the pyramid and the XML
out of it, but never removes the staging directory itself: replaying the
call's effect trace, `/tmp/t1` still exists afterwards — a residual
staging directory remains on disk. -/
theorem claim_c2_counterexample :
    (make_tiles sampleEnv moveArgs).1 = .ok ("/o/x.tms", "/o/x.xml") ∧
    (make_tiles sampleEnv moveArgs).2.contains (.mkdir "/tmp/t1") = true ∧
    dirsAfter (make_tiles sampleEnv moveArgs).2 false "/tmp/t1" = true := by
  refine ⟨rfl, rfl, rfl⟩

lemma noSlash_mkImage_name (cwd p : String) :
    noSlash (mkImage cwd p).image_name = true :=
  noSlash_beforeDot (noSlash_pyBasename _)

lemma noSlash_convertedImage_name (env : Env) (a : Args) :
    noSlash (convertedImage env a).image_name = true := by
  by_cases hcv : a.convert <;>
    simp [convertedImage, hcv, inputImage, noSlash_mkImage_name]

lemma tmsSuffix_startsWith_false {s : String} (hs : noSlash s = true) :
    strStartsWith (s ++ ".tms") "/" = false :=
  strStartsWith_append_slash_false hs rfl

lemma tmsSuffix_ne_empty (s : String) : s ++ ".tms" ≠ "" :=
  append_ne_empty_right (by decide)

/-- C2 amended: every successful `make_tiles` call with `move=true`,
whatever the convert and contrast flags, relocates the TMS tree out of the
staging directory `tmpdirAt env (nAfterContrast a)` and deletes the staged
XML file, but the staging directory itself is never removed: no effect of
the trace removes it, so the (emptied) staging directory remains on disk.
The hypotheses are the success preconditions (matching bands, parseable
info query, existing input) plus freshness: the staging temp directory is
not the destination subtree an overwriting move deletes, nor inside it. -/
theorem claim_c2_amended (env : Env) (a : Args) (i : GdalInfo)
    (hm : a.move = true) (hif : env.inputIsFile = true)
    (hinfo : env.info = some i)
    (hrc : env.rasterCount = some a.nodata.length)
    (hfresh : Eff.removesDir (tmpdirAt env (nAfterContrast a))
      (.rmtree (osPathJoin a.output_folder
        (pyBasename (osPathJoin (tmpdirAt env (nAfterContrast a))
          ((convertedImage env a).image_name ++ ".tms"))))) = false) :
    (make_tiles env a).1 =
      .ok (osPathJoin a.output_folder
             ((convertedImage env a).image_name ++ ".tms"),
           osPathJoin a.output_folder
             ((inputImage env a).image_name ++ ".xml")) ∧
    (make_tiles env a).2.contains
      (.mkdir (tmpdirAt env (nAfterContrast a))) = true ∧
    ((make_tiles env a).2.all
      fun e => !(e.removesDir (tmpdirAt env (nAfterContrast a)))) = true ∧
    (make_tiles env a).2.contains
      (.removeFile (osPathJoin (tmpdirAt env (nAfterContrast a))
        ((inputImage env a).image_name ++ ".xml"))) = true ∧
    (make_tiles env a).2.contains
      (.moveTree (osPathJoin (tmpdirAt env (nAfterContrast a))
        ((convertedImage env a).image_name ++ ".tms")) a.output_folder) = true := by
  have hds : (workingDatasource env a).isfile = true := by
    simp [workingDatasource, hif]
  have h4 := create_tms_success (workingDatasource env a)
    (contrastedImage env a).image_path (outputFolderName env a) a.nodata
    a.zoom a.quiet hds hrc
  have hnm := noSlash_convertedImage_name env a
  have hne1 : ¬(osPathJoin (tmpdirAt env (nAfterContrast a))
      ((convertedImage env a).image_name ++ ".tms") =
        tmpdirAt env (nAfterContrast a)) := by
    have := osPathJoin_ne_left (tmpdirAt env (nAfterContrast a))
      ((convertedImage env a).image_name ++ ".tms")
      (tmsSuffix_startsWith_false hnm)
      (tmsSuffix_ne_empty (convertedImage env a).image_name)
    simpa using this
  have hpu1 : pathUnder (osPathJoin (tmpdirAt env (nAfterContrast a))
      ((convertedImage env a).image_name ++ ".tms"))
      (tmpdirAt env (nAfterContrast a)) = false :=
    pathUnder_osPathJoin_left (tmpdirAt env (nAfterContrast a))
      ((convertedImage env a).image_name ++ ".tms")
      (tmsSuffix_startsWith_false hnm)
      (tmsSuffix_ne_empty (convertedImage env a).image_name)
  have hfresh' : ¬(osPathJoin a.output_folder
        (pyBasename (osPathJoin (tmpdirAt env (nAfterContrast a))
          ((convertedImage env a).image_name ++ ".tms"))) =
        tmpdirAt env (nAfterContrast a)) ∧
      pathUnder (osPathJoin a.output_folder
        (pyBasename (osPathJoin (tmpdirAt env (nAfterContrast a))
          ((convertedImage env a).image_name ++ ".tms"))))
        (tmpdirAt env (nAfterContrast a)) = false := by
    simpa [Eff.removesDir] using hfresh
  simp only [make_tiles, h4, hinfo, create_xml]
  by_cases hcv : a.convert <;> by_cases hct : a.contrast <;>
    by_cases hdm : env.destHasSameTms <;>
    by_cases hoe : env.outputFolderExistsAtMove <;>
    simp [hm, hcv, hct, hdm, hoe, convertTrace, contrastTrace,
      outputFolderTrace, outputFolderName, Eff.removesDir, hne1, hpu1,
      hfresh'.1, hfresh'.2]

/-- C2 amended witness: the concrete `move=true` run of the counterexample
satisfies the hypotheses. -/
theorem claim_c2_amended_witness :
    moveArgs.move = true ∧ sampleEnv.inputIsFile = true ∧
    sampleEnv.info = some sampleInfo ∧
    sampleEnv.rasterCount = some moveArgs.nodata.length ∧
    ((make_tiles sampleEnv moveArgs).2.all
      fun e => !(e.removesDir (tmpdirAt sampleEnv
        (nAfterContrast moveArgs)))) = true := by
  refine ⟨rfl, rfl, rfl, rfl, ?_⟩
  exact (claim_c2_amended sampleEnv moveArgs sampleInfo rfl rfl rfl rfl
    (by decide)).2.2.1

/-! ## C10 — is the original input file ever deleted? -/

/-- `create_tms` deletes nothing: its trace is empty or a command plus the
externally written tree. -/
lemma create_tms_no_delete (ds : Datasource) (ip ofn : String)
    (nd z : List Int) (q : Bool) (p : String) :
    ∀ e ∈ (create_tms ds ip ofn nd z q).2, e.deletes p = false := by
  unfold create_tms
  cases hv : validate_image_bands ds nd with
  | error e => simp
  | ok valid => cases valid <;> simp [Eff.deletes]

/-- A successful `create_tms` returns its `output_folder` argument
unchanged. -/
lemma create_tms_ok_folder {ds : Datasource} {ip ofn : String}
    {nd z : List Int} {q : Bool} {tms : String} {t : List Eff}
    (h : create_tms ds ip ofn nd z q = (.ok tms, t)) : tms = ofn := by
  unfold create_tms at h
  cases hv : validate_image_bands ds nd with
  | error e => rw [hv] at h; simp at h
  | ok valid =>
    rw [hv] at h
    cases valid with
    | false => simp at h
    | true =>
      simp at h
      exact h.1.symm

/-- `create_xml` deletes nothing: its trace is the read-only info query
plus at most one file write. -/
lemma create_xml_no_delete (info : Option GdalInfo) (ip : String)
    (img : Image) (bl : String) (mz : Int) (ofd : String) (p : String) :
    ∀ e ∈ (create_xml info ip img bl mz ofd).2, e.deletes p = false := by
  cases info <;> simp [create_xml, Eff.deletes]

/-- Environment for the nested-input counterexample: the destination
already contains an entry named `x.tms` (it is the directory holding the
input itself), so the overwriting move removes it. -/
def nestedEnv : Env := { sampleEnv with destHasSameTms := true }

/-- `make_tiles` arguments whose input image lives inside
`{output_folder}/x.tms`, the destination subtree a `move=true` run
overwrites. -/
def nestedArgs : Args :=
  { image_path := "/d/o/x.tms/x.tif", base_link := "b",
    output_folder := "/d/o", zoom := [2, 3], nodata := [0], move := true }

/-- C10 counterexample: when the input image lives inside the destination
subtree `{output_folder}/{name}.tms` and `move=true`, the overwriting
relocation step runs `shutil.rmtree` on that subtree and thereby deletes
the original input file, even though the call succeeds: replaying the
trace, the input no longer exists afterwards. -/
theorem claim_c10_counterexample :
    (make_tiles nestedEnv nestedArgs).1 = .ok ("/d/o/x.tms", "/d/o/x.xml") ∧
    ((make_tiles nestedEnv nestedArgs).2.any
      fun e => e.deletes (inputImage nestedEnv nestedArgs).image_path) = true ∧
    filesAfter (make_tiles nestedEnv nestedArgs).2 true
      (inputImage nestedEnv nestedArgs).image_path = false := by
  refine ⟨rfl, rfl, rfl⟩

/-- C10 amended: no effect of a `make_tiles` trace deletes the original
input file, provided the input does not collide with the pipeline's own
artifact locations: it is not the byte-scaled temp copy, not the staged
XML path, and neither at nor inside the staged `.tms` tree or the
destination `.tms` subtree that an overwriting move removes (the
counterexample shows the claim fails without the last proviso).  In
particular the cleanup step (`converted_image.remove_file()`) only ever
removes the byte-scaled copy. -/
theorem claim_c10_amended (env : Env) (a : Args)
    (hconv : a.convert = true →
      ¬((convertedImage env a).image_path = (inputImage env a).image_path))
    (hxml : a.move = true →
      ¬(osPathJoin (outputFolderName env a)
          ((inputImage env a).image_name ++ ".xml") =
        (inputImage env a).image_path))
    (hdest : a.move = true →
      Eff.deletes (inputImage env a).image_path
        (.rmtree (osPathJoin a.output_folder
          (pyBasename (osPathJoin (outputFolderName env a)
            ((convertedImage env a).image_name ++ ".tms"))))) = false)
    (hmvt : a.move = true →
      Eff.deletes (inputImage env a).image_path
        (.moveTree (osPathJoin (outputFolderName env a)
          ((convertedImage env a).image_name ++ ".tms"))
          a.output_folder) = false) :
    ∀ e ∈ (make_tiles env a).2,
      e.deletes (inputImage env a).image_path = false := by
  have hpre1 : ∀ e ∈ convertTrace env a,
      e.deletes (inputImage env a).image_path = false := by
    by_cases hcv : a.convert <;> simp [convertTrace, hcv, Eff.deletes]
  have hpre2 : ∀ e ∈ contrastTrace env a,
      e.deletes (inputImage env a).image_path = false := by
    by_cases hct : a.contrast <;> simp [contrastTrace, hct, Eff.deletes]
  have hpre3 : ∀ e ∈ outputFolderTrace env a,
      e.deletes (inputImage env a).image_path = false := by
    by_cases hmv : a.move <;> by_cases hoe : env.outputFolderExists <;>
      simp [outputFolderTrace, hmv, hoe, Eff.deletes]
  have ht4 := create_tms_no_delete (workingDatasource env a)
    (contrastedImage env a).image_path (outputFolderName env a) a.nodata
    a.zoom a.quiet (inputImage env a).image_path
  have ht5 := create_xml_no_delete env.info (contrastedImage env a).image_path
    (inputImage env a) a.base_link (pyMax a.zoom) (outputFolderName env a)
    (inputImage env a).image_path
  simp only [make_tiles]
  rcases h4 : create_tms (workingDatasource env a)
      (contrastedImage env a).image_path (outputFolderName env a) a.nodata
      a.zoom a.quiet with ⟨r4, t4⟩
  rw [h4] at ht4
  cases r4 with
  | error e =>
    intro e he
    rcases List.mem_append.mp he with h | h
    · rcases List.mem_append.mp h with h' | h'
      · rcases List.mem_append.mp h' with h'' | h''
        · exact hpre1 _ h''
        · exact hpre2 _ h''
      · exact hpre3 _ h'
    · exact ht4 _ h
  | ok tms =>
    have htms : tms = outputFolderName env a := create_tms_ok_folder h4
    subst htms
    rcases h5 : create_xml env.info (contrastedImage env a).image_path
        (inputImage env a) a.base_link (pyMax a.zoom)
        (outputFolderName env a) with ⟨r5, t5⟩
    rw [h5] at ht5
    have hpieces : ∀ e ∈ convertTrace env a ++ contrastTrace env a ++
        outputFolderTrace env a ++ t4 ++ t5,
        e.deletes (inputImage env a).image_path = false := by
      intro e he
      rcases List.mem_append.mp he with h | h
      · rcases List.mem_append.mp h with h' | h'
        · rcases List.mem_append.mp h' with h'' | h''
          · rcases List.mem_append.mp h'' with h3 | h3
            · exact hpre1 _ h3
            · exact hpre2 _ h3
          · exact hpre3 _ h''
        · exact ht4 _ h'
      · exact ht5 _ h
    cases r5 with
    | error e =>
      intro e he
      exact hpieces _ he
    | ok xml =>
      have hxmlname : xml = (inputImage env a).image_name ++ ".xml" := by
        cases hi : env.info with
        | none => rw [hi] at h5; simp [create_xml] at h5
        | some i =>
          rw [hi] at h5
          simp [create_xml] at h5
          exact h5.1.symm
      subst hxmlname
      clear h4 h5
      have hclean : ∀ e ∈ (if a.convert = true
          then [Eff.removeFile (convertedImage env a).image_path]
          else ([] : List Eff)),
          e.deletes (inputImage env a).image_path = false := by
        by_cases hcv : a.convert
        · intro e he
          rw [if_pos hcv, List.mem_singleton] at he
          subst he
          simp only [Eff.deletes]
          exact beq_eq_false_iff_ne.mpr (hconv hcv)
        · simp [hcv]
      by_cases hmv : a.move = true
      · intro e he
        simp only [hmv] at he
        simp [List.mem_append, List.mem_cons, List.not_mem_nil] at he
        rcases he with h | h | h | h | h | h | h | h | h | h | h
        · exact hpre1 _ h
        · exact hpre2 _ h
        · exact hpre3 _ h
        · exact ht4 _ h
        · exact ht5 _ h
        · obtain ⟨hcv, he'⟩ := h
          subst he'
          simp only [Eff.deletes]
          exact beq_eq_false_iff_ne.mpr (hconv hcv)
        · obtain ⟨-, he'⟩ := h
          subst he'
          rfl
        · obtain ⟨-, he'⟩ := h
          subst he'
          exact hdest hmv
        · subst h
          exact hmvt hmv
        · subst h
          rfl
        · subst h
          simp only [Eff.deletes]
          exact beq_eq_false_iff_ne.mpr (hxml hmv)
      · intro e he
        simp only [eq_false_intro hmv] at he
        simp [List.mem_append] at he
        rcases he with h | h | h | h | h | h
        · exact hpre1 _ h
        · exact hpre2 _ h
        · exact hpre3 _ h
        · exact ht4 _ h
        · exact ht5 _ h
        · obtain ⟨hcv, he'⟩ := h
          subst he'
          simp only [Eff.deletes]
          exact beq_eq_false_iff_ne.mpr (hconv hcv)

/-- C10 amended witness: the benign concrete `move=true` run deletes
nothing at the input path. -/
theorem claim_c10_amended_witness :
    ¬((convertedImage sampleEnv moveArgs).image_path =
      (inputImage sampleEnv moveArgs).image_path) ∧
    ∀ e ∈ (make_tiles sampleEnv moveArgs).2,
      e.deletes (inputImage sampleEnv moveArgs).image_path = false := by
  refine ⟨by decide, ?_⟩
  exact claim_c10_amended sampleEnv moveArgs (fun _ => by decide)
    (fun _ => by decide) (fun _ => by decide) (fun _ => by decide)

/-! ## C7 — `Image.rename_file` round-trip -/

/-- A filesystem containing exactly the file `/a/b.tif`. -/
def fs0 : String → Bool := fun q => q == "/a/b.tif"

/-- The handle for `/a/b.tif`. -/
def imgA : Image := mkImage "/" "/a/b.tif"

/-- C7 counterexample: renaming `/a/b.tif` to the name `X = "b.tif"` leaves
the handle's base name `"b"` (the part before the first dot), not `X`; and
since the new path equals the old one, the old path still exists on disk. -/
theorem claim_c7_counterexample :
    (renameFile "/" fs0 imgA "b.tif").2.image_name = "b" ∧
    ¬((renameFile "/" fs0 imgA "b.tif").2.image_name = "b.tif") ∧
    (renameFile "/" fs0 imgA "b.tif").1 "/a/b.tif" = true := by
  refine ⟨rfl, by decide, rfl⟩

/-- C7 amended: renaming an `Image` to a well-formed file name `X` (no
separator; target path absolute and in normal form) yields a
handle whose base name is the part of `X` before the first dot (`X` itself
when `X` has no dot); the new path exists on disk; the old path no longer
exists provided the new path differs from it; and the attribute invariant
(`image_dir = dirname(image_path)`, `image_basename = basename(image_path)`,
`image_name = image_basename` before the first dot) is re-established. -/
theorem claim_c7_amended (cwd : String) (fs : String → Bool) (img : Image)
    (X : String) (hX1 : noSlash X = true)
    (habs : strStartsWith (osPathJoin img.image_dir X) "/" = true)
    (hnorm : pyNormpath (osPathJoin img.image_dir X) =
      osPathJoin img.image_dir X) :
    (renameFile cwd fs img X).2.image_name = beforeDot X ∧
    (renameFile cwd fs img X).1 (osPathJoin img.image_dir X) = true ∧
    (osPathJoin img.image_dir X ≠ img.image_path →
      (renameFile cwd fs img X).1 img.image_path = false) ∧
    (renameFile cwd fs img X).2.image_dir =
      pyDirname (renameFile cwd fs img X).2.image_path ∧
    (renameFile cwd fs img X).2.image_basename =
      pyBasename (renameFile cwd fs img X).2.image_path ∧
    (renameFile cwd fs img X).2.image_name =
      beforeDot (renameFile cwd fs img X).2.image_basename := by
  have habs' : pyAbspath cwd (osPathJoin img.image_dir X) =
      osPathJoin img.image_dir X := by
    simp [pyAbspath, habs, hnorm]
  refine ⟨?_, ?_, ?_, rfl, rfl, rfl⟩
  · show beforeDot (pyBasename (pyAbspath cwd (osPathJoin img.image_dir X))) =
      beforeDot X
    rw [habs', pyBasename_osPathJoin hX1]
  · simp [renameFile, osRename]
  · intro hne
    simp [renameFile, osRename, Ne.symm hne]

/-- C7 amended witness: renaming `/a/b.tif` to `c.png`. -/
theorem claim_c7_amended_witness :
    (renameFile "/" fs0 imgA "c.png").2.image_name = beforeDot "c.png" ∧
    (renameFile "/" fs0 imgA "c.png").1 (osPathJoin imgA.image_dir "c.png") = true ∧
    (osPathJoin imgA.image_dir "c.png" ≠ imgA.image_path →
      (renameFile "/" fs0 imgA "c.png").1 imgA.image_path = false) ∧
    (renameFile "/" fs0 imgA "c.png").2.image_dir =
      pyDirname (renameFile "/" fs0 imgA "c.png").2.image_path ∧
    (renameFile "/" fs0 imgA "c.png").2.image_basename =
      pyBasename (renameFile "/" fs0 imgA "c.png").2.image_path ∧
    (renameFile "/" fs0 imgA "c.png").2.image_name =
      beforeDot (renameFile "/" fs0 imgA "c.png").2.image_basename :=
  claim_c7_amended "/" fs0 imgA "c.png" (by decide) (by decide) (by decide)

/-- Arguments like `mismatchArgs` but with conversion disabled. -/
def mismatchNoConvertArgs : Args :=
  { image_path := "/i/x.tif", base_link := "http://h", output_folder := "/o",
    zoom := [2, 15], nodata := [0, 0], convert := false }

/-- C1 amended witness: the mismatch with conversion and contrast disabled
fails without writing any file. -/
theorem claim_c1_amended_witness :
    mismatchNoConvertArgs.convert = false ∧
    mismatchNoConvertArgs.contrast = false ∧
    sampleEnv.inputIsFile = true ∧
    sampleEnv.rasterCount = some 1 ∧
    (1 : Nat) ≠ mismatchNoConvertArgs.nodata.length ∧
    (make_tiles sampleEnv mismatchNoConvertArgs).1 = .error (.tmsError 1) ∧
    ((make_tiles sampleEnv mismatchNoConvertArgs).2.all
      fun e => !e.writesFile) = true := by
  refine ⟨rfl, rfl, rfl, rfl, by decide, ?_, ?_⟩
  · exact (claim_c1_amended sampleEnv mismatchNoConvertArgs 1 rfl rfl rfl rfl
      (by decide)).1
  · exact (claim_c1_amended sampleEnv mismatchNoConvertArgs 1 rfl rfl rfl rfl
      (by decide)).2
